import Mathlib

/-!
Verification of the stage-wiring and certificate-selection logic of the
`blueprint-cdk-front-web` repository (a CDK pipeline plus static-site
hosting stack), as a shallow embedding in Lean 4.

The embedding follows the TypeScript sources:
* `WebStack` (web-stack revision): the conditional certificate / custom-domain
  wiring, the `ARecord` creation, and the dashboard `MathExpression`;
* `packages/infra/lib/pipeline-stack.ts`: the per-stage loop that
  instantiates an `InfraStage` and registers the post-deploy
  `CodeBuildStep`s with their IAM `PolicyStatement`s.

Optional TypeScript string fields are modelled as `Option String`; a
JavaScript truthiness test `if (props.x)` on such a field is `isTruthy`
(false for `none` and for the empty string, mirroring JS semantics).
"Present"/"supplied" in the specification is read as this truthiness.
-/

/-- JS truthiness of an optional string: `undefined` and `""` are falsy. -/
def isTruthy : Option String → Bool
  | none => false
  | some s => !s.isEmpty

/-- The props accepted by `WebStack` (fields relevant to the claims). -/
structure WebStackProps where
  domainName : Option String
  buildAccount : Option String
  hostedZoneId : Option String
  certificateArn : Option String
deriving DecidableEq, Repr

/-- A bound ACM certificate: either imported by ARN
(`Certificate.fromCertificateArn`) or created by `DnsValidatedCertificate`
from a hosted zone. -/
inductive CertificateRef where
  | imported (certificateArn : String)
  | dnsValidated (domainName : String) (hostedZoneId : String)
deriving DecidableEq, Repr

/-- A hosted-zone lookup (`HostedZone.fromHostedZoneAttributes`). -/
structure HostedZoneRef where
  hostedZoneId : String
  zoneName : String
deriving DecidableEq, Repr

/-- A Route53 alias `ARecord` pointing a name at the distribution. -/
structure ARecordModel where
  zoneId : String
  recordName : String
deriving DecidableEq, Repr

/-- Observable state of a constructed `WebStack`: which certificate (if any)
is bound to the distribution, which hosted zone was looked up, the
distribution's `domainNames` alias list, and the DNS records created. -/
structure WebStackModel where
  certificate : Option CertificateRef
  hostedZone : Option HostedZoneRef
  domainNames : List String
  aliasRecords : List ARecordModel
deriving DecidableEq, Repr

/-- Shallow embedding of the `WebStack` constructor's conditional
certificate / domain / DNS-record wiring:

```
if (props.certificateArn && props.domainName) {
  certificate = Certificate.fromCertificateArn(...); domainNames.push(dn);
} else if (props.hostedZoneId && props.domainName) {
  hostedZone = HostedZone.fromHostedZoneAttributes(...);
  certificate = new DnsValidatedCertificate(...); domainNames.push(dn);
}
...
if (hostedZone && props.domainName) { new ARecord(...); }
```
-/
def buildWebStack (props : WebStackProps) : WebStackModel :=
  let dn := props.domainName.getD ""
  let certificate : Option CertificateRef :=
    if isTruthy props.certificateArn && isTruthy props.domainName then
      some (.imported (props.certificateArn.getD ""))
    else if isTruthy props.hostedZoneId && isTruthy props.domainName then
      some (.dnsValidated dn (props.hostedZoneId.getD ""))
    else none
  let hostedZone : Option HostedZoneRef :=
    if isTruthy props.certificateArn && isTruthy props.domainName then none
    else if isTruthy props.hostedZoneId && isTruthy props.domainName then
      some { hostedZoneId := props.hostedZoneId.getD "", zoneName := dn }
    else none
  let domainNames : List String :=
    if isTruthy props.certificateArn && isTruthy props.domainName then [dn]
    else if isTruthy props.hostedZoneId && isTruthy props.domainName then [dn]
    else []
  let aliasRecords : List ARecordModel :=
    match hostedZone with
    | some hz => if isTruthy props.domainName
        then [{ zoneId := hz.hostedZoneId, recordName := dn }] else []
    | none => []
  { certificate := certificate, hostedZone := hostedZone,
    domainNames := domainNames, aliasRecords := aliasRecords }

/-- The specification's tagged view of the certificate choice. -/
inductive CertificateSelection where
  | imported
  | validatedFromZone
  | none
deriving DecidableEq, Repr

/-- The selection realised by a constructed `WebStack`, read off from the
certificate it bound. -/
def WebStackModel.selection (m : WebStackModel) : CertificateSelection :=
  match m.certificate with
  | Option.none => .none
  | some (.imported _) => .imported
  | some (.dnsValidated _ _) => .validatedFromZone

/-! ## Pipeline stack (`packages/infra/lib/pipeline-stack.ts`) -/

/-- Which `CfnOutput` of an `InfraStage` a value refers to. -/
inductive OutputKind where
  | bucketName
  | distributionId
  | bucketArn
deriving DecidableEq, Repr

/-- A reference to a named stage's `CfnOutput` (an unresolved token at
definition-build time). -/
structure CfnOutputRef where
  stageName : String
  kind : OutputKind
deriving DecidableEq, Repr

/-- A resource entry of a `PolicyStatement`: a `CfnOutput` token value, a
token with the `/*` object suffix appended, the literal `'*'`, or a plain
string literal (e.g. a role ARN from configuration). -/
inductive Resource where
  | output (ref : CfnOutputRef)
  | outputObjects (ref : CfnOutputRef)
  | star
  | literal (s : String)
deriving DecidableEq, Repr

/-- An IAM `PolicyStatement` as built in the pipeline stack. -/
structure PolicyStatement where
  resources : List Resource
  actions : List String
deriving DecidableEq, Repr

/-- A `CodeBuildStep` as built in the pipeline stack (the fields the claims
observe; the `input` artifact is the synth output directory `./` for every
step and carries no per-stage information). -/
structure CodeBuildStepM where
  name : String
  envFromCfnOutputs : List (String × CfnOutputRef)
  commands : List String
  rolePolicyStatements : List PolicyStatement
deriving DecidableEq, Repr

/-- The outputs an `InfraStage` named `n` exposes (forwarded from its
`WebStack`). -/
structure InfraStageModel where
  name : String
  bucketNameOutput : CfnOutputRef
  distributionIdOutput : CfnOutputRef
  bucketArnOutput : CfnOutputRef
deriving DecidableEq, Repr

/-- `new InfraStage(this, stage.name, { buildAccount, ...stage })`. -/
def mkInfraStage (n : String) : InfraStageModel :=
  { name := n
    bucketNameOutput := { stageName := n, kind := .bucketName }
    distributionIdOutput := { stageName := n, kind := .distributionId }
    bucketArnOutput := { stageName := n, kind := .bucketArn } }

/-- One entry of the configured `stages` list (`StageEnvironment` in
`pipeline-stack.ts`, extending the stage's hosting props). -/
structure StageEnvironment where
  name : String
  testing : Bool
  testingRoleArn : Option String
  domainName : Option String
  hostedZoneId : Option String
  certificateArn : Option String
deriving DecidableEq, Repr

/-- The `'Web Sync'` `CodeBuildStep` registered as the `post` of
`pipeline.addStage(infra, ...)` for a stage: its env wires the stage's
bucket-name and distribution-id outputs, and its role policy grants S3
actions on the stage's bucket ARN token and its objects plus
`cloudformation:ListExports` on `'*'`. -/
def webSyncStep (infra : InfraStageModel) : CodeBuildStepM :=
  { name := "Web Sync"
    envFromCfnOutputs :=
      [("WEB_BUCKET_NAME", infra.bucketNameOutput),
       ("DISTRIBUTION_ID", infra.distributionIdOutput)]
    commands :=
      ["make generate-config", "make sync-website", "make invalidate-distribution"]
    rolePolicyStatements :=
      [{ resources :=
           [Resource.output infra.bucketArnOutput,
            Resource.outputObjects infra.bucketArnOutput]
         actions :=
           ["s3:List*", "s3:Abort*", "s3:GetObject*", "s3:PutObject*",
            "s3:DeleteObject*"] },
       { resources := [Resource.star]
         actions := ["cloudformation:ListExports"] }] }

/-- The `policies` array built inside `if (stage.testing)`: a single
`sts:assumeRole` grant on `stage.testingRoleArn` when that field is truthy,
otherwise empty. -/
def testingPolicies (stage : StageEnvironment) : List PolicyStatement :=
  if isTruthy stage.testingRoleArn then
    [{ resources := [Resource.literal (stage.testingRoleArn.getD "")]
       actions := ["sts:assumeRole"] }]
  else []

/-- The `'Functional Testing'` `CodeBuildStep` added via `webStage.addPost`
when the stage's testing flag is set. -/
def functionalTestStep (stage : StageEnvironment) : CodeBuildStepM :=
  { name := "Functional Testing"
    envFromCfnOutputs := []
    commands := ["make test-functional"]
    rolePolicyStatements := testingPolicies stage }

/-- What one iteration of the stage loop contributes: the hosting
instantiation (`InfraStage`) and the post-deploy steps of the pipeline
stage, in registration order. -/
structure StageWiring where
  hosting : InfraStageModel
  post : List CodeBuildStepM
deriving DecidableEq, Repr

/-- One iteration of `for (const stage of props.stages)`: instantiate the
`InfraStage`, add the pipeline stage with the `'Web Sync'` post step, then,
if `stage.testing`, add the `'Functional Testing'` post step. -/
def wireStage (stage : StageEnvironment) : StageWiring :=
  let infra := mkInfraStage stage.name
  { hosting := infra
    post :=
      if stage.testing then [webSyncStep infra, functionalTestStep stage]
      else [webSyncStep infra] }

/-- The whole stage loop of the `PipelineStack` constructor. -/
def buildPipeline (stages : List StageEnvironment) : List StageWiring :=
  stages.map wireStage

/-- Construction events emitted while the loop runs, in program order. -/
inductive Event where
  | hostingInstantiated (name : String)
  | postActionAdded (stageName : String) (step : CodeBuildStepM)
deriving DecidableEq, Repr

/-- The events of one loop iteration: the hosting instantiation strictly
first, then the stage's post-deploy actions in registration order. -/
def stageEvents (stage : StageEnvironment) : List Event :=
  Event.hostingInstantiated stage.name ::
    (wireStage stage).post.map (Event.postActionAdded stage.name)

/-- The event trace of the whole loop. -/
def pipelineEvents (stages : List StageEnvironment) : List Event :=
  stages.flatMap stageEvents

/-- The hosting instantiations of a trace, in order of occurrence. -/
def hostingNames (evs : List Event) : List String :=
  evs.filterMap fun e =>
    match e with
    | .hostingInstantiated n => some n
    | .postActionAdded _ _ => none

/-! ## Dashboard `MathExpression` (`WebStack` constructor) -/

/-- Abstract syntax of a CloudWatch metric-math expression over named
metric variables, with rational-valued evaluation. -/
inductive MExpr where
  | var (name : String)
  | const (q : ℚ)
  | add (l r : MExpr)
  | div (l r : MExpr)
  | mul (l r : MExpr)
deriving DecidableEq, Repr

/-- Evaluate a metric-math expression in an environment assigning a value
to each metric variable. -/
def MExpr.eval (env : String → ℚ) : MExpr → ℚ
  | .var n => env n
  | .const q => q
  | .add l r => l.eval env + r.eval env
  | .div l r => l.eval env / r.eval env
  | .mul l r => l.eval env * r.eval env

/-- The dashboard's `MathExpression` string `'(m4+m5+m6)/m7*100'`
(`*` and `/` bind tighter than `+`, left-associated), as an AST. -/
def errorRateExpression : MExpr :=
  .mul
    (.div (.add (.add (.var "m4") (.var "m5")) (.var "m6")) (.var "m7"))
    (.const 100)

/-- The `usingMetrics` binding of the dashboard's `MathExpression`: which
CloudFront metric each variable stands for. -/
def errorRateUsingMetrics : List (String × String) :=
  [("m4", "LambdaExecutionError"),
   ("m5", "LambdaValidationError"),
   ("m6", "LambdaLimitExceededErrors"),
   ("m7", "Requests")]

/-- The error-rate expression evaluated at concrete values of the three
edge error counters `m4`, `m5`, `m6` and the total-request counter `m7`. -/
def evalErrorRate (a b c d : ℚ) : ℚ :=
  errorRateExpression.eval fun n =>
    if n = "m4" then a else if n = "m5" then b
    else if n = "m6" then c else if n = "m7" then d else 0

/-! ## Theorems -/

/-- C1: the certificate/domain resolver yields `imported` when
`certificateArn` and `domainName` are both present (even if `hostedZoneId`
is also present), `validatedFromZone` when the imported pair is incomplete
but `hostedZoneId` and `domainName` are both present, and `none` in every
other case. Presence is JS truthiness of the optional field. -/
theorem certificate_selection_policy (props : WebStackProps) :
    (isTruthy props.certificateArn = true → isTruthy props.domainName = true →
      (buildWebStack props).selection = CertificateSelection.imported) ∧
    (¬(isTruthy props.certificateArn = true ∧ isTruthy props.domainName = true) →
      isTruthy props.hostedZoneId = true → isTruthy props.domainName = true →
      (buildWebStack props).selection = CertificateSelection.validatedFromZone) ∧
    (¬(isTruthy props.certificateArn = true ∧ isTruthy props.domainName = true) →
      ¬(isTruthy props.hostedZoneId = true ∧ isTruthy props.domainName = true) →
      (buildWebStack props).selection = CertificateSelection.none) := by
  refine ⟨?_, ?_, ?_⟩ <;>
  · intro h1 h2
    first
      | (intro h3
         cases hc : isTruthy props.certificateArn <;>
           cases hd : isTruthy props.domainName <;>
             cases hz : isTruthy props.hostedZoneId <;>
               simp_all [buildWebStack, WebStackModel.selection])
      | (cases hc : isTruthy props.certificateArn <;>
           cases hd : isTruthy props.domainName <;>
             cases hz : isTruthy props.hostedZoneId <;>
               simp_all [buildWebStack, WebStackModel.selection])

/-- Witness for C1 at concrete inputs: all three branches, including the
preference for the imported path when the zone pair is also present. -/
theorem certificate_selection_policy_witness :
    (buildWebStack
      { domainName := some "site.example", buildAccount := none,
        hostedZoneId := some "Z123", certificateArn := some "arn-cert" }).selection
        = CertificateSelection.imported ∧
    (buildWebStack
      { domainName := some "site.example", buildAccount := none,
        hostedZoneId := some "Z123", certificateArn := none }).selection
        = CertificateSelection.validatedFromZone ∧
    (buildWebStack
      { domainName := some "site.example", buildAccount := none,
        hostedZoneId := none, certificateArn := none }).selection
        = CertificateSelection.none :=
  ⟨(certificate_selection_policy _).1 (by decide) (by decide),
   (certificate_selection_policy _).2.1 (by decide) (by decide) (by decide),
   (certificate_selection_policy _).2.2 (by decide) (by decide)⟩

/-- C7: when neither complete certificate pair is present (including
partial input such as `domainName` alone, or `certificateArn` without
`domainName`), the resolver yields no selection without any error (the
embedding is a total function), no certificate is bound, the distribution's
alias list is empty, and no DNS record is created — the distribution serves
only its default generated domain. -/
theorem partial_input_no_custom_domain (props : WebStackProps)
    (hc : ¬(isTruthy props.certificateArn = true ∧ isTruthy props.domainName = true))
    (hz : ¬(isTruthy props.hostedZoneId = true ∧ isTruthy props.domainName = true)) :
    (buildWebStack props).selection = CertificateSelection.none ∧
    (buildWebStack props).certificate = none ∧
    (buildWebStack props).domainNames = [] ∧
    (buildWebStack props).aliasRecords = [] := by
  cases h1 : isTruthy props.certificateArn <;>
    cases h2 : isTruthy props.domainName <;>
      cases h3 : isTruthy props.hostedZoneId <;>
        simp_all [buildWebStack, WebStackModel.selection]

/-- Witness for C7 at `domainName` alone (no certificate source). -/
theorem partial_input_no_custom_domain_witness :
    (buildWebStack
      { domainName := some "site.example", buildAccount := none,
        hostedZoneId := none, certificateArn := none }).selection
        = CertificateSelection.none ∧
    (buildWebStack
      { domainName := some "site.example", buildAccount := none,
        hostedZoneId := none, certificateArn := none }).certificate = none ∧
    (buildWebStack
      { domainName := some "site.example", buildAccount := none,
        hostedZoneId := none, certificateArn := none }).domainNames = [] ∧
    (buildWebStack
      { domainName := some "site.example", buildAccount := none,
        hostedZoneId := none, certificateArn := none }).aliasRecords = [] :=
  partial_input_no_custom_domain _ (by decide) (by decide)

/-- C10: a DNS alias record is created only in the zone-validated path —
there it is exactly one record in the configured zone for the configured
domain; in the imported-certificate path the domain is attached as a
distribution alias but no DNS record of any kind is created. -/
theorem alias_record_only_in_zone_path (props : WebStackProps) :
    ((buildWebStack props).aliasRecords ≠ [] →
      (buildWebStack props).selection = CertificateSelection.validatedFromZone) ∧
    ((buildWebStack props).selection = CertificateSelection.validatedFromZone →
      (buildWebStack props).aliasRecords =
        [{ zoneId := props.hostedZoneId.getD "",
           recordName := props.domainName.getD "" }]) ∧
    ((buildWebStack props).selection = CertificateSelection.imported →
      (buildWebStack props).domainNames = [props.domainName.getD ""] ∧
      (buildWebStack props).aliasRecords = []) := by
  cases h1 : isTruthy props.certificateArn <;>
    cases h2 : isTruthy props.domainName <;>
      cases h3 : isTruthy props.hostedZoneId <;>
        simp_all [buildWebStack, WebStackModel.selection]

/-- Witness for C10 on the two certificate paths: the zone-validated input
creates exactly its alias record, the imported input attaches the alias but
creates no record. -/
theorem alias_record_only_in_zone_path_witness :
    (buildWebStack
      { domainName := some "site.example", buildAccount := none,
        hostedZoneId := some "Z123", certificateArn := none }).aliasRecords =
      [{ zoneId := "Z123", recordName := "site.example" }] ∧
    (buildWebStack
      { domainName := some "site.example", buildAccount := none,
        hostedZoneId := none, certificateArn := some "arn-cert" }).domainNames
        = ["site.example"] ∧
    (buildWebStack
      { domainName := some "site.example", buildAccount := none,
        hostedZoneId := none, certificateArn := some "arn-cert" }).aliasRecords
        = [] :=
  ⟨(alias_record_only_in_zone_path _).2.1 (by decide),
   ((alias_record_only_in_zone_path _).2.2 (by decide)).1,
   ((alias_record_only_in_zone_path _).2.2 (by decide)).2⟩

/-- C4: a stage with `testing = false` gets no functional-test action: its
post-deploy sequence is exactly the content-sync (`'Web Sync'`) action. -/
theorem no_test_action_when_testing_false (stage : StageEnvironment)
    (h : stage.testing = false) :
    (wireStage stage).post = [webSyncStep (mkInfraStage stage.name)] := by
  simp [wireStage, h]

/-- Witness for C4 at a concrete non-testing stage. -/
theorem no_test_action_when_testing_false_witness :
    (wireStage
      { name := "Prod", testing := false, testingRoleArn := none,
        domainName := none, hostedZoneId := none, certificateArn := none }).post
      = [webSyncStep (mkInfraStage "Prod")] :=
  no_test_action_when_testing_false _ rfl

/-- C5: a stage with `testing = true` and no `testingRoleArn` gets the
functional-test action appended after the sync action, and that action's
permission grant list is empty. -/
theorem test_action_without_role_empty_grants (stage : StageEnvironment)
    (ht : stage.testing = true) (hr : stage.testingRoleArn = none) :
    (wireStage stage).post =
      [webSyncStep (mkInfraStage stage.name),
       { name := "Functional Testing", envFromCfnOutputs := [],
         commands := ["make test-functional"], rolePolicyStatements := [] }] := by
  simp [wireStage, ht, functionalTestStep, testingPolicies, hr, isTruthy]

/-- Witness for C5 at a concrete testing stage without a role. -/
theorem test_action_without_role_empty_grants_witness :
    (wireStage
      { name := "Testing", testing := true, testingRoleArn := none,
        domainName := none, hostedZoneId := none, certificateArn := none }).post =
      [webSyncStep (mkInfraStage "Testing"),
       { name := "Functional Testing", envFromCfnOutputs := [],
         commands := ["make test-functional"], rolePolicyStatements := [] }] :=
  test_action_without_role_empty_grants _ rfl rfl

/-- C8: the empty stage list builds successfully (the embedding is total)
and yields zero hosting instantiations, zero post-deploy actions, and an
empty event trace — no implicit default stage is added. -/
theorem empty_stage_list_inert :
    buildPipeline [] = [] ∧ pipelineEvents [] = [] ∧
    hostingNames (pipelineEvents []) = [] :=
  ⟨rfl, rfl, rfl⟩

/-- C6: a stage with `testing = true` and a (truthy) `testingRoleArn` gets a
functional-test action appended carrying exactly one permission grant,
`sts:assumeRole` on exactly that ARN; and the end-to-end configuration with
stages `[{name:"Testing", testing:true, testingRoleArn:"role-x"}]` yields
one hosting instantiation named `"Testing"`, one sync action whose S3 grant
references that stage's bucket ARN (and objects under it), and one test
action granted `sts:assumeRole` on `"role-x"`. -/
theorem test_action_with_role :
    (∀ (stage : StageEnvironment) (arn : String),
      stage.testing = true → stage.testingRoleArn = some arn → arn ≠ "" →
      (wireStage stage).post =
        [webSyncStep (mkInfraStage stage.name),
         { name := "Functional Testing", envFromCfnOutputs := [],
           commands := ["make test-functional"],
           rolePolicyStatements :=
             [{ resources := [Resource.literal arn],
                actions := ["sts:assumeRole"] }] }]) ∧
    buildPipeline
        [{ name := "Testing", testing := true, testingRoleArn := some "role-x",
           domainName := none, hostedZoneId := none, certificateArn := none }] =
      [{ hosting :=
           { name := "Testing",
             bucketNameOutput := { stageName := "Testing", kind := .bucketName },
             distributionIdOutput :=
               { stageName := "Testing", kind := .distributionId },
             bucketArnOutput := { stageName := "Testing", kind := .bucketArn } },
         post :=
           [{ name := "Web Sync",
              envFromCfnOutputs :=
                [("WEB_BUCKET_NAME",
                  { stageName := "Testing", kind := .bucketName }),
                 ("DISTRIBUTION_ID",
                  { stageName := "Testing", kind := .distributionId })],
              commands :=
                ["make generate-config", "make sync-website",
                 "make invalidate-distribution"],
              rolePolicyStatements :=
                [{ resources :=
                     [Resource.output { stageName := "Testing", kind := .bucketArn },
                      Resource.outputObjects
                        { stageName := "Testing", kind := .bucketArn }],
                   actions :=
                     ["s3:List*", "s3:Abort*", "s3:GetObject*",
                      "s3:PutObject*", "s3:DeleteObject*"] },
                 { resources := [Resource.star],
                   actions := ["cloudformation:ListExports"] }] },
            { name := "Functional Testing", envFromCfnOutputs := [],
              commands := ["make test-functional"],
              rolePolicyStatements :=
                [{ resources := [Resource.literal "role-x"],
                   actions := ["sts:assumeRole"] }] }] }] := by
  constructor
  · intro stage arn ht hr hne
    simp [wireStage, ht, functionalTestStep, testingPolicies, hr, isTruthy,
      String.isEmpty_iff, hne]
  · rfl

/-- Witness for C6 at the end-to-end stage record. -/
theorem test_action_with_role_witness :
    (wireStage
      { name := "Testing", testing := true, testingRoleArn := some "role-x",
        domainName := none, hostedZoneId := none, certificateArn := none }).post =
      [webSyncStep (mkInfraStage "Testing"),
       { name := "Functional Testing", envFromCfnOutputs := [],
         commands := ["make test-functional"],
         rolePolicyStatements :=
           [{ resources := [Resource.literal "role-x"],
              actions := ["sts:assumeRole"] }] }] :=
  test_action_with_role.1 _ "role-x" rfl rfl (by decide)

/-- Closed form of the dashboard's error-rate expression. -/
theorem evalErrorRate_eq (a b c d : ℚ) :
    evalErrorRate a b c d = (a + b + c) / d * 100 := by
  simp [evalErrorRate, errorRateExpression, MExpr.eval]

/-- C9: the dashboard's error-rate `MathExpression` evaluates to
`(a+b+c)/d*100` over the three edge error counters and the total-request
counter, and for non-negative counters with positive total it is
monotonically non-decreasing in each error counter and non-increasing in
the total-request counter. -/
theorem error_rate_expression_spec :
    (∀ env : String → ℚ,
      errorRateExpression.eval env =
        (env "m4" + env "m5" + env "m6") / env "m7" * 100) ∧
    (∀ a b c d : ℚ, evalErrorRate a b c d = (a + b + c) / d * 100) ∧
    (∀ a a' b c d : ℚ, 0 ≤ a → 0 ≤ b → 0 ≤ c → 0 < d → a ≤ a' →
      evalErrorRate a b c d ≤ evalErrorRate a' b c d) ∧
    (∀ a b b' c d : ℚ, 0 ≤ a → 0 ≤ b → 0 ≤ c → 0 < d → b ≤ b' →
      evalErrorRate a b c d ≤ evalErrorRate a b' c d) ∧
    (∀ a b c c' d : ℚ, 0 ≤ a → 0 ≤ b → 0 ≤ c → 0 < d → c ≤ c' →
      evalErrorRate a b c d ≤ evalErrorRate a b c' d) ∧
    (∀ a b c d d' : ℚ, 0 ≤ a → 0 ≤ b → 0 ≤ c → 0 < d → d ≤ d' →
      evalErrorRate a b c d' ≤ evalErrorRate a b c d) := by
  have h100 : (0 : ℚ) ≤ 100 := by norm_num
  refine ⟨?_, evalErrorRate_eq, ?_, ?_, ?_, ?_⟩
  · intro env
    simp [errorRateExpression, MExpr.eval]
  · intro a a' b c d _ _ _ hd hle
    rw [evalErrorRate_eq, evalErrorRate_eq]
    exact mul_le_mul_of_nonneg_right
      ((div_le_div_iff_of_pos_right hd).mpr (by linarith)) h100
  · intro a b b' c d _ _ _ hd hle
    rw [evalErrorRate_eq, evalErrorRate_eq]
    exact mul_le_mul_of_nonneg_right
      ((div_le_div_iff_of_pos_right hd).mpr (by linarith)) h100
  · intro a b c c' d _ _ _ hd hle
    rw [evalErrorRate_eq, evalErrorRate_eq]
    exact mul_le_mul_of_nonneg_right
      ((div_le_div_iff_of_pos_right hd).mpr (by linarith)) h100
  · intro a b c d d' ha hb hc hd hle
    rw [evalErrorRate_eq, evalErrorRate_eq]
    refine mul_le_mul_of_nonneg_right ?_ h100
    exact div_le_div_of_nonneg_left (by linarith) hd hle

/-- Witness for C9 at concrete counter values 1, 2, 3 over total 4. -/
theorem error_rate_expression_spec_witness :
    evalErrorRate 1 2 3 4 = (1 + 2 + 3) / 4 * 100 ∧
    evalErrorRate 1 2 3 4 ≤ evalErrorRate 5 2 3 4 ∧
    evalErrorRate 1 2 3 8 ≤ evalErrorRate 1 2 3 4 :=
  ⟨error_rate_expression_spec.2.1 1 2 3 4,
   error_rate_expression_spec.2.2.1 1 5 2 3 4 (by norm_num) (by norm_num)
     (by norm_num) (by norm_num) (by norm_num),
   error_rate_expression_spec.2.2.2.2.2 1 2 3 4 8 (by norm_num) (by norm_num)
     (by norm_num) (by norm_num) (by norm_num)⟩

/-- The trace of `s :: rest` is the events of `s` followed by the trace of
the remaining stages. -/
theorem pipelineEvents_cons (s : StageEnvironment) (rest : List StageEnvironment) :
    pipelineEvents (s :: rest) = stageEvents s ++ pipelineEvents rest := rfl

/-- Prepending one stage's events contributes exactly its hosting name. -/
theorem hostingNames_stageEvents_append (s : StageEnvironment) (t : List Event) :
    hostingNames (stageEvents s ++ t) = s.name :: hostingNames t := by
  simp [hostingNames, stageEvents, List.filterMap_append, List.filterMap_map,
    Function.comp]

/-- The hosting instantiations of the whole trace are the configured stage
names, in declaration order. -/
theorem hostingNames_pipeline (stages : List StageEnvironment) :
    hostingNames (pipelineEvents stages) = stages.map StageEnvironment.name := by
  induction stages with
  | nil => rfl
  | cons s rest ih =>
    rw [pipelineEvents_cons, hostingNames_stageEvents_append, ih, List.map_cons]

/-- A trace never starts with a post-deploy action: each iteration emits
its hosting instantiation first. -/
theorem pipelineEvents_head_not_postAction (stages : List StageEnvironment)
    (n : String) (step : CodeBuildStepM) (t : List Event) :
    pipelineEvents stages ≠ Event.postActionAdded n step :: t := by
  cases stages with
  | nil => simp [pipelineEvents]
  | cons s rest => simp [pipelineEvents_cons, stageEvents]

/-- A post-deploy event found among one stage's post events carries that
stage's name. -/
theorem postAction_name_of_mem {n m : String} {step : CodeBuildStepM}
    {l : List CodeBuildStepM}
    (h : Event.postActionAdded n step ∈ l.map (Event.postActionAdded m)) :
    n = m := by
  rcases List.mem_map.mp h with ⟨s, _, heq⟩
  injection heq with h1 h2
  exact h1.symm

/-- In the trace, every post-deploy action is preceded by the hosting
instantiation of its own stage. -/
theorem hosting_precedes_post (stages : List StageEnvironment) :
    ∀ (l₁ : List Event) (n : String) (step : CodeBuildStepM) (l₂ : List Event),
      pipelineEvents stages = l₁ ++ Event.postActionAdded n step :: l₂ →
      Event.hostingInstantiated n ∈ l₁ := by
  induction stages with
  | nil =>
    intro l₁ n step l₂ h
    simp [pipelineEvents] at h
  | cons s rest ih =>
    intro l₁ n step l₂ h
    rw [pipelineEvents_cons, stageEvents] at h
    cases l₁ with
    | nil =>
      rw [List.nil_append, List.cons_append] at h
      simp at h
    | cons x l₁ =>
      rw [List.cons_append, List.cons_append] at h
      injection h with hx htail
      subst hx
      rcases List.append_eq_append_iff.mp htail with ⟨l', hl1, hl2⟩ | ⟨c', hc1, hc2⟩
      · have hmem := ih l' n step l₂ hl2
        exact List.mem_cons_of_mem _ (hl1 ▸ List.mem_append_right _ hmem)
      · cases c' with
        | nil =>
          rw [List.nil_append] at hc2
          exact absurd hc2.symm (pipelineEvents_head_not_postAction rest n step l₂)
        | cons y c'' =>
          rw [List.cons_append] at hc2
          injection hc2 with hy htl
          have hy' : Event.postActionAdded n step ∈
              (wireStage s).post.map (Event.postActionAdded s.name) := by
            rw [hc1]
            exact hy ▸ List.mem_append_right _ (List.mem_cons_self _ _)
          rw [postAction_name_of_mem hy']
          exact List.mem_cons_self _ _

/-- C2: for every stage list of length N, the trace of the stage-wiring
loop contains exactly N hosting instantiations, in declaration order (the
hosting names of the trace are exactly the configured names), and every
post-deploy action in the trace is preceded by the hosting instantiation
of its own stage. -/
theorem stage_wiring_order (stages : List StageEnvironment) :
    hostingNames (pipelineEvents stages) = stages.map StageEnvironment.name ∧
    (hostingNames (pipelineEvents stages)).length = stages.length ∧
    ∀ (l₁ : List Event) (n : String) (step : CodeBuildStepM) (l₂ : List Event),
      pipelineEvents stages = l₁ ++ Event.postActionAdded n step :: l₂ →
      Event.hostingInstantiated n ∈ l₁ :=
  ⟨hostingNames_pipeline stages,
   by rw [hostingNames_pipeline]; exact List.length_map _ _,
   hosting_precedes_post stages⟩

/-- Witness for C2: a two-stage configuration, splitting the trace at the
second stage's sync action and recovering that stage's hosting event in
the prefix. -/
theorem stage_wiring_order_witness :
    Event.hostingInstantiated "B" ∈
      [Event.hostingInstantiated "A",
       Event.postActionAdded "A" (webSyncStep (mkInfraStage "A")),
       Event.hostingInstantiated "B"] :=
  (stage_wiring_order
      [{ name := "A", testing := false, testingRoleArn := none,
         domainName := none, hostedZoneId := none, certificateArn := none },
       { name := "B", testing := false, testingRoleArn := none,
         domainName := none, hostedZoneId := none, certificateArn := none }]).2.2
    [Event.hostingInstantiated "A",
     Event.postActionAdded "A" (webSyncStep (mkInfraStage "A")),
     Event.hostingInstantiated "B"]
    "B" (webSyncStep (mkInfraStage "B")) [] (by decide)

/-- C3 counterexample: the claim "every IAM permission grant registered by
a stage's post-deploy wiring is scoped to that stage's own bucket ARN (and
objects under it)" is false at the concrete one-stage configuration
`[{name:"Testing", testing:false}]` — the `'Web Sync'` step also registers
a `cloudformation:ListExports` grant whose resource is the literal `'*'`. -/
theorem grants_not_all_bucket_scoped :
    ¬ ∀ w ∈ buildPipeline
          [{ name := "Testing", testing := false, testingRoleArn := none,
             domainName := none, hostedZoneId := none, certificateArn := none }],
        ∀ step ∈ w.post, ∀ p ∈ step.rolePolicyStatements, ∀ r ∈ p.resources,
          r = Resource.output { stageName := w.hosting.name, kind := .bucketArn } ∨
          r = Resource.outputObjects
              { stageName := w.hosting.name, kind := .bucketArn } := by
  decide

/-- C3 amended: every resource named by a grant of a stage's post-deploy
wiring is that stage's own bucket ARN or objects under it, except for the
fixed stage-independent `cloudformation:ListExports` grant on `'*'` and,
when the stage carries a testing role, an `sts:assumeRole` grant on that
stage's own `testingRoleArn`; in particular no grant ever names a resource
belonging to a different stage. -/
theorem grants_stage_scoped (stage : StageEnvironment) :
    ∀ step ∈ (wireStage stage).post, ∀ p ∈ step.rolePolicyStatements,
      ∀ r ∈ p.resources,
        r = Resource.output { stageName := stage.name, kind := .bucketArn } ∨
        r = Resource.outputObjects { stageName := stage.name, kind := .bucketArn } ∨
        (r = Resource.star ∧ p.actions = ["cloudformation:ListExports"]) ∨
        (stage.testingRoleArn.map Resource.literal = some r ∧
         p.actions = ["sts:assumeRole"]) := by
  intro step hstep p hp r hr
  have hstep' : step = webSyncStep (mkInfraStage stage.name) ∨
      (stage.testing = true ∧ step = functionalTestStep stage) := by
    cases htest : stage.testing <;> simp_all [wireStage]
  rcases hstep' with h | ⟨htest, h⟩
  all_goals subst h
  · simp only [webSyncStep, List.mem_cons, List.not_mem_nil, or_false] at hp
    rcases hp with rfl | rfl
    · simp only [List.mem_cons, List.not_mem_nil, or_false] at hr
      rcases hr with rfl | rfl
      · exact Or.inl rfl
      · exact Or.inr (Or.inl rfl)
    · simp only [List.mem_cons, List.not_mem_nil, or_false] at hr
      subst hr
      exact Or.inr (Or.inr (Or.inl ⟨rfl, rfl⟩))
  · simp only [functionalTestStep, testingPolicies] at hp
    cases harn : stage.testingRoleArn with
    | none => simp [harn, isTruthy] at hp
    | some a =>
      rw [harn] at hp
      by_cases ha : isTruthy (some a) = true
      · rw [if_pos ha] at hp
        simp only [List.mem_cons, List.not_mem_nil, or_false] at hp
        subst hp
        simp only [List.mem_cons, List.not_mem_nil, or_false] at hr
        subst hr
        exact Or.inr (Or.inr (Or.inr ⟨by simp [harn], rfl⟩))
      · rw [if_neg ha] at hp
        simp at hp

/-- Witness for the amended C3 at the wildcard resource of the
`'Web Sync'` step of a concrete stage. -/
theorem grants_stage_scoped_witness :
    Resource.star =
        Resource.output { stageName := "Prod", kind := OutputKind.bucketArn } ∨
      Resource.star =
        Resource.outputObjects { stageName := "Prod", kind := OutputKind.bucketArn } ∨
      (Resource.star = Resource.star ∧
        ({ resources := [Resource.star],
           actions := ["cloudformation:ListExports"] } : PolicyStatement).actions
          = ["cloudformation:ListExports"]) ∨
      ((none : Option String).map Resource.literal = some Resource.star ∧
        ({ resources := [Resource.star],
           actions := ["cloudformation:ListExports"] } : PolicyStatement).actions
          = ["sts:assumeRole"]) :=
  grants_stage_scoped
    { name := "Prod", testing := false, testingRoleArn := none,
      domainName := none, hostedZoneId := none, certificateArn := none }
    (webSyncStep (mkInfraStage "Prod")) (by decide)
    { resources := [Resource.star], actions := ["cloudformation:ListExports"] }
    (by decide) Resource.star (by decide)
